import Mathlib

/-!
# Verification of the kranken-api-downloader CSV-to-Parquet pipeline

Shallow embedding of the merge / marker / resolver logic of
`kraken-pipeline.py`, `csv_to_parquet.py` and `download_kraken.py`,
with theorems settling the frozen claims about the spec.
-/

namespace Kraken

/-- One OHLC record.  The natural key fields `time` and `pair` are explicit;
the remaining seven columns (open, high, low, close, vwap, volume, count)
are kept as an opaque list of string fields, as the merge code never
inspects them. -/
structure Row where
  time : String
  pair : String
  fields : List String
deriving DecidableEq, Repr

/-- The natural key of a record, `(time, pair)`. -/
def Row.key (r : Row) : String × String := (r.time, r.pair)

/-- State of a partition's parquet file on disk: absent, present but failing
a full structural read (`is_valid_parquet` returns false), or present and
readable with the given rows.  Generic in the row type so the same store
model serves both the OHLC rows and raw string-list frames. -/
inductive PFile (α : Type) where
  | missing
  | corrupt
  | valid (rows : List α)
deriving DecidableEq, Repr

/-- Result of one merge: the rows written back (`df_combined`), whether a
corruption warning was logged, and whether the prior file was deleted as
corrupt. -/
structure MergeResult (α : Type) where
  rows : List α
  warned : Bool
  deletedCorrupt : Bool
deriving DecidableEq, Repr

/-- The merge of `migrate_existing` (kraken-pipeline.py lines 176-188) and
`process_csvs` (lines 125-134): if the partition file does not exist the
combined frame is the incoming frame; if it exists but fails validation it
is deleted with a warning and the combined frame is the incoming frame;
otherwise the combined frame is `pd.concat([df_old, df])`, i.e. existing
rows followed by incoming rows.  No duplicate dropping is performed. -/
def storeMerge {α : Type} : PFile α → List α → MergeResult α
  | .missing, df => ⟨df, false, false⟩
  | .corrupt, df => ⟨df, true, true⟩
  | .valid old, df => ⟨old ++ df, false, false⟩

/-- The merge followed by the unconditional `to_parquet` write-back: the
partition file afterwards holds exactly the combined rows.  Second
component: whether a corruption warning was logged. -/
def mergeAndWrite {α : Type} (p : PFile α) (df : List α) : PFile α × Bool :=
  let m := storeMerge p df
  (.valid m.rows, m.warned)

/-- Number of rows in a list sharing a given natural key. -/
def countKey (k : String × String) (rows : List Row) : Nat :=
  rows.countP (fun r => r.key = k)

/-- A row list with no two rows sharing a natural key. -/
def noDupKeys : List Row → Bool
  | [] => true
  | r :: rs => (!rs.any (fun x => x.key = r.key)) && noDupKeys rs

/-- Deduplication by natural key keeping the first occurrence, written from
the spec's words (spec 4.3 step 3) for comparison with the code's merge. -/
def dedupByKey (rows : List Row) : List Row :=
  rows.foldl (fun acc r => if acc.any (fun x => x.key = r.key) then acc else acc ++ [r]) []

/-- An existing record and a differing incoming record with the same key. -/
def rowA : Row := ⟨"2023-01-01 00:00", "XBTUSD", ["1"]⟩

/-- Same natural key as `rowA`, different payload. -/
def rowB : Row := ⟨"2023-01-01 00:00", "XBTUSD", ["2"]⟩

/-- C1 (counterexample): merging an incoming record with the same natural
key as an existing record keeps both copies — the result is not the
key-deduplicated concatenation, and the key appears twice. -/
theorem storeMerge_keeps_duplicates :
    (storeMerge (.valid [rowA]) [rowB]).rows ≠ dedupByKey ([rowA] ++ [rowB]) ∧
    countKey ("2023-01-01 00:00", "XBTUSD") (storeMerge (.valid [rowA]) [rowB]).rows = 2 ∧
    noDupKeys (storeMerge (.valid [rowA]) [rowB]).rows = false := by
  refine ⟨?_, ?_, ?_⟩ <;> decide

/-- C1 (amended): the merge writes the plain concatenation of existing rows
followed by incoming rows, preserving order and dropping nothing: every
row's multiplicity in the result is the sum of its multiplicities in the
existing and incoming sets, so duplicate natural keys are retained, and an
existing and a differing incoming record with the same key both remain. -/
theorem storeMerge_is_concat (old inc : List Row) :
    (storeMerge (.valid old) inc).rows = old ++ inc ∧
    (∀ r : Row, ((storeMerge (.valid old) inc).rows).count r = old.count r + inc.count r) ∧
    (∀ k, countKey k (storeMerge (.valid old) inc).rows = countKey k old + countKey k inc) := by
  refine ⟨rfl, ?_, ?_⟩
  · intro r; simp [storeMerge, List.count_append]
  · intro k; simp [storeMerge, countKey, List.countP_append]

/-- C2 (counterexample): merging the single record `rowA` into an empty
partition once yields one row; merging the same records again yields two
rows, so the second merge is not a no-op on row count. -/
theorem storeMerge_not_idempotent :
    (storeMerge (Kraken.PFile.missing) [rowA]).rows.length = 1 ∧
    (storeMerge (.valid (storeMerge (Kraken.PFile.missing) [rowA]).rows) [rowA]).rows.length = 2 := by
  constructor <;> rfl

/-- C2 (amended): a second merge of the same incoming records is not
idempotent: it appends the incoming rows again, so the row count grows by
the number of incoming records and the content gains a second copy of
them.  (Re-ingest protection in this code comes from renaming source files
to `.copied`, not from the merge.) -/
theorem storeMerge_second_merge_appends (p : PFile Row) (inc : List Row) :
    (storeMerge (.valid (storeMerge p inc).rows) inc).rows
      = (storeMerge p inc).rows ++ inc ∧
    (storeMerge (.valid (storeMerge p inc).rows) inc).rows.length
      = (storeMerge p inc).rows.length + inc.length := by
  exact ⟨rfl, by simp [storeMerge]⟩

/-- C3: merging a record set `R` into a partition whose file exists but
fails the structural read logs a warning, deletes the corrupt file,
succeeds, and the written partition holds exactly `R`. -/
theorem storeMerge_corrupt_recovery (R : List Row) :
    (storeMerge (Kraken.PFile.corrupt) R).rows = R ∧
    (storeMerge (Kraken.PFile.corrupt) R).warned = true ∧
    (storeMerge (Kraken.PFile.corrupt) R).deletedCorrupt = true ∧
    mergeAndWrite (Kraken.PFile.corrupt) R = (.valid R, true) := by
  exact ⟨rfl, rfl, rfl, rfl⟩

/-! ## Per-file migration control flow (`migrate_existing`, lines 156-209)

The per-file body is embedded as a function over an oracle saying which
filesystem / pandas primitives succeed, returning the ordered trace of
effectful events.  An uncaught exception escaping the per-file handler is
the `.error` constructor (carrying the events that had already happened). -/

/-- Which fallible primitive operations succeed for one file:
`pd.read_csv`, `to_parquet`, the rename to `.copied`, the `unlink` of the
`.copied` file, and the rename to `.error` inside the exception handler. -/
structure Oracle where
  readOk : Bool
  writeOk : Bool
  renameOk : Bool
  unlinkOk : Bool
  renameErrOk : Bool
deriving DecidableEq, Repr

/-- Effectful events of one file's processing, in program order. -/
inductive Ev where
  | readCsv
  | deletedCorruptParquet
  | wroteParquet
  | renamedCopied
  | deletedCopied
  | renamedError
deriving DecidableEq, Repr

/-- Terminal state of the source file after one file's processing. -/
inductive FileFate where
  | pending
  | copied
  | errored
  | deleted
  | skipped
deriving DecidableEq, Repr

/-- The `except` handler of `migrate_existing` (lines 198-209): with
`--mark-errors` it renames `csv_file` to the `.error` name.  That rename
itself raises — uncaught, aborting the whole run — when the source file no
longer exists under its original name (it was already renamed to
`.copied`) or when the rename primitive fails. -/
def markError (o : Oracle) (markErrors : Bool) (csvExists : Bool)
    (evs : List Ev) (fate : FileFate) : Except (List Ev) (List Ev × FileFate) :=
  if markErrors then
    if csvExists && o.renameErrOk then .ok (evs ++ [Ev.renamedError], .errored)
    else .error evs
  else .ok (evs, fate)

/-- Whether the partition file exists but fails `is_valid_parquet`. -/
def isCorruptB {α : Type} : PFile α → Bool
  | .corrupt => true
  | _ => false

/-- Body of one file's `try` block and handlers in `migrate_existing`
(lines 170-209), after partition-key resolution: the empty-file check, the
CSV read, the corrupt-partition deletion, the parquet write, the rename to
`.copied`, and the optional deletion of the `.copied` file, each routed
through the handler on failure. -/
def migrateBody (o : Oracle) (empty corrupt : Bool)
    (deleteCsv markErrors : Bool) : Except (List Ev) (List Ev × FileFate) :=
  if empty then
    markError o markErrors true [] .pending
  else if !o.readOk then
    markError o markErrors true [Ev.readCsv] .pending
  else
    let evs1 := [Ev.readCsv] ++ (if corrupt then [Ev.deletedCorruptParquet] else [])
    if !o.writeOk then
      markError o markErrors true evs1 .pending
    else
      let evs2 := evs1 ++ [Ev.wroteParquet]
      if !o.renameOk then
        markError o markErrors true evs2 .pending
      else
        let evs3 := evs2 ++ [Ev.renamedCopied]
        if deleteCsv then
          if !o.unlinkOk then
            markError o markErrors false evs3 .copied
          else
            .ok (evs3 ++ [Ev.deletedCopied], .deleted)
        else
          .ok (evs3, .copied)

/-- One file of `migrate_existing` (kraken-pipeline.py lines 159-209).
`parents` is the file's ancestor chain, nearest first (`parents[0]` the
month directory, `parents[1]` the year directory); the year and month are
taken from those directory names with no digit check, and a path with
fewer than two ancestors raises `IndexError`, which is caught and the file
skipped.  `empty` is whether `stat().st_size == 0`.  Returns the event
trace and file fate, or `.error` with the trace when an exception escapes
the handler. -/
def migrateOne (parents : List String) (o : Oracle) (empty : Bool)
    (part : PFile Row) (deleteCsv markErrors : Bool) :
    Except (List Ev) (List Ev × FileFate) :=
  match parents with
  | [] => .ok ([], .skipped)
  | [_] => .ok ([], .skipped)
  | _month :: _year :: _ => migrateBody o empty (isCorruptB part) deleteCsv markErrors

/-- The events that happened, whether or not an exception escaped. -/
def evsOf : Except (List Ev) (List Ev × FileFate) → List Ev
  | .error e => e
  | .ok (e, _) => e

/-- Whether an exception escaped the per-file handler. -/
def escaped : Except (List Ev) (List Ev × FileFate) → Bool
  | .error _ => true
  | .ok _ => false

/-- `a` occurs strictly before the first occurrence of `b` (vacuously true
when `b` never occurs). -/
def precededBy (a b : Ev) : List Ev → Bool
  | [] => true
  | x :: xs => if x = b then false else if x = a then true else precededBy a b xs

/-- C4: in every per-file trace of `migrate_existing`, assuming the rename
primitive itself does not fail, the source file is renamed to the absorbed
(`.copied`) name if and only if the partition write succeeded, and the
rename event never occurs before the successful write event. -/
theorem migrateOne_rename_iff_write (parents : List String) (o : Oracle)
    (empty : Bool) (part : PFile Row) (dc me : Bool)
    (h : o.renameOk = true) :
    (Ev.renamedCopied ∈ evsOf (migrateOne parents o empty part dc me) ↔
      Ev.wroteParquet ∈ evsOf (migrateOne parents o empty part dc me)) ∧
    precededBy Ev.wroteParquet Ev.renamedCopied
      (evsOf (migrateOne parents o empty part dc me)) = true := by
  rcases o with ⟨r, w, rn, u, re⟩
  cases h
  rcases parents with _ | ⟨m, _ | ⟨y, rest⟩⟩ <;> cases part <;>
    simp only [migrateOne, isCorruptB] <;> revert r w u re empty dc me <;> decide

/-- C4 (witness): concrete run with a successful write: the file is
renamed to `.copied`, after the write. -/
theorem migrateOne_rename_iff_write_witness :
    (Ev.renamedCopied ∈ evsOf (migrateOne ["01", "2023"] ⟨true, true, true, true, true⟩ false (Kraken.PFile.missing) false false) ↔
      Ev.wroteParquet ∈ evsOf (migrateOne ["01", "2023"] ⟨true, true, true, true, true⟩ false (Kraken.PFile.missing) false false)) ∧
    precededBy Ev.wroteParquet Ev.renamedCopied
      (evsOf (migrateOne ["01", "2023"] ⟨true, true, true, true, true⟩ false (Kraken.PFile.missing) false false)) = true :=
  migrateOne_rename_iff_write ["01", "2023"] ⟨true, true, true, true, true⟩
    false (Kraken.PFile.missing) false false rfl

/-- C6 (counterexample): with `--delete-csv` and `--mark-errors` both set,
a file that merges and renames successfully but whose `.copied` deletion
fails makes the handler rename the no-longer-existing original name, and
that exception escapes the per-file handling — the claim that no exception
propagates out under any per-file condition is false. -/
theorem migrateOne_exception_escapes :
    migrateOne ["01", "2023"] ⟨true, true, true, false, true⟩ false
        (Kraken.PFile.missing) true true
      = .error [Ev.readCsv, Ev.wroteParquet, Ev.renamedCopied] ∧
    escaped (migrateOne ["01", "2023"] ⟨true, true, true, false, true⟩ false
        (Kraken.PFile.missing) true true) = true := by
  exact ⟨rfl, rfl⟩

/-- C6 (amended): per-file failures in validation, read, merge-write and
the `.copied` rename are caught; an exception escapes the run exactly when
`--mark-errors` is set and the handler's own `.error` rename fails —
either because the handler's rename primitive fails after one of those
caught failures, or unavoidably when the post-absorb `.copied` deletion
fails after the file was already renamed. -/
theorem migrateOne_escape_iff (m y : String) (rest : List String)
    (o : Oracle) (empty : Bool) (part : PFile Row) (dc me : Bool) :
    escaped (migrateOne (m :: y :: rest) o empty part dc me) =
      (me && ((!o.renameErrOk && (empty || !o.readOk || !o.writeOk || !o.renameOk))
        || (!empty && o.readOk && o.writeOk && o.renameOk && dc && !o.unlinkOk))) := by
  rcases o with ⟨r, w, rn, u, re⟩
  cases part <;> simp only [migrateOne, isCorruptB] <;>
    revert r w rn u re empty dc me <;> decide

/-! ## Partition-key resolution by year regex and the conversion loop
(`csv_to_parquet.py` lines 32-63, `kraken-pipeline.py` lines 103-144) -/

/-- `re.search(r"(\d{4})", s)` on a character list: the first window of
four consecutive digit characters, scanning left to right. -/
def findYearAux : List Char → Option String
  | c1 :: c2 :: c3 :: c4 :: rest =>
    if c1.isDigit && c2.isDigit && c3.isDigit && c4.isDigit then
      some (String.mk [c1, c2, c3, c4])
    else
      findYearAux (c2 :: c3 :: c4 :: rest)
  | _ => none

/-- First 4-digit run in a path string (`re.search(r"(\d{4})", ...)`),
the year resolver of `csv_to_parquet.py` line 43. -/
def findYear (s : String) : Option String :=
  findYearAux s.toList

/-- Outcome of one file of the `csv_to_parquet.py` conversion loop. -/
inductive ConvOutcome where
  | skippedName
  | skippedCopied
  | skippedNoYear
  | failed
  | appended
deriving DecidableEq, Repr

/-- One file of the conversion loop in `csv_to_parquet.py` `main`
(lines 35-63): files whose name ends in `.copied` are skipped; a file
whose `.copied` sibling marker already exists is skipped; a parent path
without a 4-digit year is skipped; otherwise the CSV is read, concatenated
onto the existing yearly parquet if one exists, written, and the file
renamed to its `.copied` marker — any exception in that block yielding a
per-file failure.  `readCsvOk`, `readParquetOk` and `writeOk` say whether
the corresponding pandas calls succeed; `partExists` whether the yearly
parquet file exists.  Returns the outcome and the event trace. -/
def convertOne (name parent : String) (copiedExists : Bool)
    (readCsvOk readParquetOk writeOk : Bool) (partExists : Bool) :
    ConvOutcome × List Ev :=
  if name.endsWith ".copied" then (.skippedName, [])
  else if copiedExists then (.skippedCopied, [])
  else if (findYear parent).isNone then (.skippedNoYear, [])
  else if !readCsvOk then (.failed, [Ev.readCsv])
  else if partExists && !readParquetOk then (.failed, [Ev.readCsv])
  else if !writeOk then (.failed, [Ev.readCsv])
  else (.appended, [Ev.readCsv, Ev.wroteParquet, Ev.renamedCopied])

/-- C9 (counterexample): `migrate_existing` resolves the partition from
the two enclosing directory names with no digit check, so a file under the
digit-free path `foo/bar` — whose ancestor path contains no 4-digit year —
is not skipped: its records are read, written to a partition and the file
renamed, contradicting the claim that resolution fails and the file is
skipped without writing. -/
theorem migrateOne_no_year_still_writes :
    findYear "foo/bar" = none ∧
    migrateOne ["bar", "foo"] ⟨true, true, true, true, true⟩ false
        (Kraken.PFile.missing) false false
      = .ok ([Ev.readCsv, Ev.wroteParquet, Ev.renamedCopied], .copied) := by
  exact ⟨rfl, rfl⟩

/-- C9 (amended): the year-regex resolvers do skip digit-free paths: in
`csv_to_parquet.py`'s loop a pending file whose parent path contains no
4-digit year is skipped with no read, merge or rename; but
`migrate_existing` performs no digit check, skipping only paths with fewer
than two ancestor directories and otherwise using the directory names
as-is. -/
theorem convertOne_skips_no_year (name parent : String)
    (copiedExists readCsvOk readParquetOk writeOk partExists : Bool)
    (hn : name.endsWith ".copied" = false)
    (hc : copiedExists = false)
    (hy : findYear parent = none) :
    convertOne name parent copiedExists readCsvOk readParquetOk writeOk partExists
        = (.skippedNoYear, []) ∧
    (∀ parents : List String, parents.length ≤ 1 →
      ∀ o empty part dc me, migrateOne parents o empty part dc me = .ok ([], .skipped)) := by
  constructor
  · unfold convertOne
    rw [hn, hc, hy]
    simp
  · intro parents hp o empty part dc me
    rcases parents with _ | ⟨a, _ | ⟨b, rest⟩⟩
    · rfl
    · rfl
    · simp at hp

/-- C9 (witness): concrete digit-free parent path `archive/old`: the
conversion loop skips the file with an empty event trace. -/
theorem convertOne_skips_no_year_witness :
    convertOne "a.csv" "archive/old" false true true true false
        = (.skippedNoYear, []) ∧
    (∀ parents : List String, parents.length ≤ 1 →
      ∀ o empty part dc me, migrateOne parents o empty part dc me = .ok ([], .skipped)) :=
  convertOne_skips_no_year "a.csv" "archive/old" false true true true false
    rfl rfl rfl

/-- C10: in the conversion loop, a pending `.csv` file whose name bears no
`.copied` suffix but whose `.copied` sibling marker exists is skipped
entirely: outcome `skippedCopied` with an empty event trace, so it is
never read, never merged into any partition, and never renamed. -/
theorem convertOne_skips_when_marker_exists (name parent : String)
    (readCsvOk readParquetOk writeOk partExists : Bool)
    (hn : name.endsWith ".copied" = false) :
    convertOne name parent true readCsvOk readParquetOk writeOk partExists
        = (.skippedCopied, []) ∧
    Ev.readCsv ∉ (convertOne name parent true readCsvOk readParquetOk writeOk partExists).2 ∧
    Ev.wroteParquet ∉ (convertOne name parent true readCsvOk readParquetOk writeOk partExists).2 ∧
    Ev.renamedCopied ∉ (convertOne name parent true readCsvOk readParquetOk writeOk partExists).2 := by
  have h : convertOne name parent true readCsvOk readParquetOk writeOk partExists
      = (.skippedCopied, []) := by
    unfold convertOne
    rw [hn]
    simp
  refine ⟨h, ?_, ?_, ?_⟩ <;> rw [h] <;> simp

/-- C10 (witness): concrete pending file `a.csv` with an existing
`a.csv.copied` marker is skipped with no events. -/
theorem convertOne_skips_when_marker_exists_witness :
    convertOne "a.csv" "2023/01" true true true true true = (.skippedCopied, []) ∧
    Ev.readCsv ∉ (convertOne "a.csv" "2023/01" true true true true true).2 ∧
    Ev.wroteParquet ∉ (convertOne "a.csv" "2023/01" true true true true true).2 ∧
    Ev.renamedCopied ∉ (convertOne "a.csv" "2023/01" true true true true true).2 :=
  convertOne_skips_when_marker_exists "a.csv" "2023/01" true true true true rfl

/-! ## Ingestion marker renames (`pathlib` suffix semantics)

`migrate_existing` / `process_csvs` mark a file absorbed with
`csv_file.with_suffix(csv_file.suffix + ".copied")`; `restore_copied`
(kraken-pipeline.py lines 147-153) undoes it with `f.with_suffix(".csv")`,
while `restore_copied_files` (csv_to_parquet.py lines 7-16) uses
`copied_file.name[:-7]`.  We embed `pathlib.PurePath.suffix` /
`with_suffix` for file names. -/

/-- `pathlib` `suffix` of a file name: the substring from the last dot,
empty when there is no dot or the only dot leads the name. -/
def pysuffix (s : String) : String :=
  let r := s.toList.reverse
  let k := r.takeWhile (fun c => c ≠ '.')
  if k.length + 1 < r.length then String.mk ('.' :: k.reverse) else ""

/-- `pathlib` stem: the name with its `suffix` removed. -/
def pystem (s : String) : String :=
  String.mk (s.toList.take (s.toList.length - (pysuffix s).toList.length))

/-- `pathlib` `with_suffix`: replace the (last) suffix by `suf`. -/
def pyWithSuffix (s suf : String) : String :=
  pystem s ++ suf

/-- `markAbsorbed` of kraken-pipeline.py (lines 190-192):
`csv_file.with_suffix(csv_file.suffix + ".copied")`. -/
def markAbsorbedKp (name : String) : String :=
  pyWithSuffix name (pysuffix name ++ ".copied")

/-- `markErrored` of kraken-pipeline.py (lines 200-202):
`csv_file.with_suffix(csv_file.suffix + ".error")`. -/
def markErroredKp (name : String) : String :=
  pyWithSuffix name (pysuffix name ++ ".error")

/-- The rename target of `restore_copied` (kraken-pipeline.py line 150):
`f.with_suffix(".csv")`, applied to names matching `*.csv.copied`. -/
def restoreKp (name : String) : String :=
  pyWithSuffix name ".csv"

/-- `markAbsorbed` of csv_to_parquet.py (line 39):
`csv_file.with_name(csv_file.name + ".copied")`. -/
def markAbsorbedCtp (name : String) : String :=
  name ++ ".copied"

/-- The rename target of `restore_copied_files` (csv_to_parquet.py
line 11): `copied_file.name[:-7]`, dropping the 7 characters of
`".copied"`. -/
def restoreCtp (name : String) : String :=
  name.dropRight 7

/-- C5 (code bug): marking `a.csv` absorbed yields `a.csv.copied`, but
`restore_copied` in kraken-pipeline.py renames it to `a.csv.csv` — not
back to its original name — because `with_suffix(".csv")` only replaces
the final `.copied` segment's dot-suffix; the sibling restore in
csv_to_parquet.py, which slices off the last 7 characters, does return the
original name.  This contradicts the program's own `--restore` help text
("Restore .csv.copied files to .csv"). -/
theorem restoreKp_breaks_roundtrip :
    markAbsorbedKp "a.csv" = "a.csv.copied" ∧
    restoreKp (markAbsorbedKp "a.csv") = "a.csv.csv" ∧
    restoreKp (markAbsorbedKp "a.csv") ≠ "a.csv" ∧
    restoreCtp (markAbsorbedCtp "a.csv") = "a.csv" ∧
    markErroredKp "a.csv" = "a.csv.error" := by
  refine ⟨?_, ?_, ?_, ?_, ?_⟩ <;> decide

/-! ## Row schema validation and legacy repair

The `countpair` legacy column is produced by the writer in
`download_kraken.py` (lines 40-47), whose header line is
`",".join(cols) + "pair"`.  The validator that repairs it and rejects
single-column frames is described by the spec (sections 4.2 and 8) but its
code is not among the source files; it is modelled from the spec below. -/

/-- A loaded CSV: header column names and rows of string cells. -/
structure Frame where
  header : List String
  rows : List (List String)
deriving DecidableEq, Repr

/-- The column names of the legacy writer in `download_kraken.py`
(lines 32-33). -/
def legacyCols : List String :=
  ["time", "open", "high", "low", "close", "vwap", "volume", "count"]

/-- The header line the legacy writer emits (`download_kraken.py`
line 41): `",".join(cols) + "pair"` — the missing delimiter fuses the last
two columns into `countpair`. -/
def legacyHeaderLine : String :=
  String.intercalate "," legacyCols ++ "pair"

/-- Split a list of characters on commas. -/
def splitCommasAux : List Char → List (List Char)
  | [] => [[]]
  | c :: cs =>
    match splitCommasAux cs with
    | cur :: rest => if c = ',' then [] :: cur :: rest else (c :: cur) :: rest
    | [] => [[c]]

/-- Split a header line on commas, as a CSV reader does to recover the
column names. -/
def splitCommas (s : String) : List String :=
  (splitCommasAux s.toList).map String.mk

/-- Split a fused `countpair` cell into its leading digit run and the
remaining trailing run. -/
def splitDigits (v : String) : String × String :=
  (String.mk (v.toList.takeWhile Char.isDigit),
   String.mk (v.toList.dropWhile Char.isDigit))

/-- Modelled from the spec: the per-row part of the legacy-format repair
(spec 4.2) — replace the cell of a `countpair` column by the `count` cell
(leading digit run) and the `pair` cell (trailing run); the repair code
itself is not among the source files. -/
def repairRow (header r : List String) : List String :=
  (header.zip r).flatMap (fun cv =>
    if cv.1 = "countpair" then [(splitDigits cv.2).1, (splitDigits cv.2).2]
    else [cv.2])

/-- Modelled from the spec: the Row Schema Validator's legacy-format
repair (spec 4.2) — if a column named `countpair` exists and neither
`count` nor `pair` exist, split `countpair` into `count` and `pair` and
drop `countpair`; the validator's code is not among the source files. -/
def repairFrame (f : Frame) : Frame :=
  if f.header.contains "countpair" && !(f.header.contains "count")
      && !(f.header.contains "pair") then
    { header := f.header.flatMap (fun c =>
        if c = "countpair" then ["count", "pair"] else [c]),
      rows := f.rows.map (repairRow f.header) }
  else f

/-- No repaired header retains a `countpair` column. -/
theorem countpair_not_mem_repaired (hs : List String) :
    "countpair" ∉ hs.flatMap (fun c =>
      if c = "countpair" then ["count", "pair"] else [c]) := by
  intro hmem
  rw [List.mem_flatMap] at hmem
  obtain ⟨c, hc, hm⟩ := hmem
  by_cases h : c = "countpair"
  · rw [if_pos h] at hm
    exact absurd hm (by decide)
  · rw [if_neg h] at hm
    rw [List.mem_singleton] at hm
    exact h hm.symm

/-- C7: on a frame with a `countpair` column and neither `count` nor
`pair`, the repair drops `countpair`, replaces it in place by `count` and
`pair`, and splits every row's fused cell into its leading digit run and
trailing run; the legacy writer's fused header (from the source) indeed
ends in `countpair`, and the concrete cell `"123XBTUSD"` becomes
`count="123"`, `pair="XBTUSD"`. -/
theorem repairFrame_splits_countpair (f : Frame)
    (h1 : f.header.contains "countpair" = true)
    (h2 : f.header.contains "count" = false)
    (h3 : f.header.contains "pair" = false) :
    "countpair" ∉ (repairFrame f).header ∧
    (repairFrame f).header = f.header.flatMap (fun c =>
      if c = "countpair" then ["count", "pair"] else [c]) ∧
    (repairFrame f).rows = f.rows.map (repairRow f.header) ∧
    splitCommas legacyHeaderLine
      = ["time", "open", "high", "low", "close", "vwap", "volume", "countpair"] ∧
    repairFrame ⟨["time", "countpair"], [["2023-01-01 00:00", "123XBTUSD"]]⟩
      = ⟨["time", "count", "pair"], [["2023-01-01 00:00", "123", "XBTUSD"]]⟩ := by
  have hcond : (f.header.contains "countpair" && !(f.header.contains "count")
      && !(f.header.contains "pair")) = true := by
    rw [h1, h2, h3]; rfl
  have hrepair : repairFrame f
      = { header := f.header.flatMap (fun c =>
            if c = "countpair" then ["count", "pair"] else [c]),
          rows := f.rows.map (repairRow f.header) } := by
    unfold repairFrame
    rw [hcond]
    rfl
  refine ⟨?_, ?_, ?_, ?_, ?_⟩
  · rw [hrepair]
    exact countpair_not_mem_repaired f.header
  · rw [hrepair]
  · rw [hrepair]
  · decide
  · decide

/-- C7 (witness): the repair applied to the concrete two-column frame with
the fused cell `123XBTUSD`. -/
theorem repairFrame_splits_countpair_witness :
    "countpair" ∉ (repairFrame ⟨["time", "countpair"], [["t", "1X"]]⟩).header ∧
    (repairFrame ⟨["time", "countpair"], [["t", "1X"]]⟩).header
      = (["time", "countpair"] : List String).flatMap (fun c =>
          if c = "countpair" then ["count", "pair"] else [c]) ∧
    (repairFrame ⟨["time", "countpair"], [["t", "1X"]]⟩).rows
      = [["t", "1X"]].map (repairRow ["time", "countpair"]) ∧
    splitCommas legacyHeaderLine
      = ["time", "open", "high", "low", "close", "vwap", "volume", "countpair"] ∧
    repairFrame ⟨["time", "countpair"], [["2023-01-01 00:00", "123XBTUSD"]]⟩
      = ⟨["time", "count", "pair"], [["2023-01-01 00:00", "123", "XBTUSD"]]⟩ :=
  repairFrame_splits_countpair ⟨["time", "countpair"], [["t", "1X"]]⟩ rfl rfl rfl

/-- Validation errors of the Row Schema Validator (spec section 7). -/
inductive SchemaError where
  | singleColumn (col : String)
  | missingColumns (found : List String)
  | emptyInput
deriving DecidableEq, Repr

/-- Modelled from the spec: the Row Schema Validator (spec 4.2) — reject a
frame that parsed to exactly one column, naming the lone column; repair
the legacy `countpair` format; then require `time` and `pair` columns; the
validator's code is not among the source files. -/
def validateFrame (f : Frame) : Except SchemaError Frame :=
  if f.header.length = 1 then
    .error (.singleColumn (f.header.headD ""))
  else
    let g := repairFrame f
    if g.header.contains "time" && g.header.contains "pair" then .ok g
    else .error (.missingColumns g.header)

/-- Modelled from the spec: the Migrator merges into the partition only
after validation succeeds (spec 4.5 steps 2-3), so a rejected file leaves
the partition file unchanged. -/
def mergeValidated (p : PFile (List String)) (f : Frame) :
    PFile (List String) × Option SchemaError :=
  match validateFrame f with
  | .error e => (p, some e)
  | .ok g => ((mergeAndWrite p g.rows).1, none)

/-- C8: a CSV that parses to exactly one column is rejected with a
single-column error naming the lone column, and the target partition file
is left unchanged whatever its prior state. -/
theorem singleColumn_rejected (c : String) (rows : List (List String))
    (p : PFile (List String)) :
    validateFrame ⟨[c], rows⟩ = .error (.singleColumn c) ∧
    mergeValidated p ⟨[c], rows⟩ = (p, some (.singleColumn c)) := by
  exact ⟨rfl, rfl⟩

end Kraken
